import Mathlib

/-!
Verification of the force-directed layout engine (`ForceSimulation`) of the
nodeLink repository, together with the layout constants of
`frontend/config/graphConfig.js`.  Machine reals are modelled by `ℝ`; the
JavaScript `Math.sqrt` is `Real.sqrt`.  Fallible or gated code paths are
embedded exactly as written (early-return guards become `if` on the same
conditions).
-/

namespace NodeLink

noncomputable section

/-- Constant `GRAPH_CONFIG.layout.repulsionForce` (graphConfig.js). -/
def repulsionForce : ℝ := 3000

/-- Constant `GRAPH_CONFIG.layout.repulsionDistance` (graphConfig.js). -/
def repulsionDistance : ℝ := 280

/-- Constant `GRAPH_CONFIG.layout.attractionForce = 0.06` (graphConfig.js). -/
def attractionForce : ℝ := 3 / 50

/-- Constant `GRAPH_CONFIG.layout.idealDistance` (graphConfig.js). -/
def idealDistance : ℝ := 250

/-- Constant `GRAPH_CONFIG.layout.damping = 0.9` (graphConfig.js). -/
def damping : ℝ := 9 / 10

/-- Constant `GRAPH_CONFIG.layout.nodePadding` (graphConfig.js). -/
def nodePadding : ℝ := 80

/-- A graph node, after `interface Node` / `AIEnhancedNode` in
`frontend/config/types.ts`: identifier, labels, position, velocity,
rendering tag fields, and the optional AI-enhancement fields. -/
@[ext]
structure Node where
  id : String
  label : String
  shortLabel : String
  x : ℝ
  y : ℝ
  vx : ℝ
  vy : ℝ
  color : String
  type : String
  description : String
  aiConfidence : Option ℝ
  aiCategory : Option String

instance : Inhabited Node :=
  ⟨⟨"", "", "", 0, 0, 0, 0, "", "", "", none, none⟩⟩

/-- A graph link, after `interface Link` in `frontend/config/types.ts`. -/
structure Link where
  source : String
  target : String
  animated : Bool

/-- The container's bounding rectangle. -/
structure Dimensions where
  width : ℝ
  height : ℝ

/-- The state of a `ForceSimulation` object (forceSimulation.js): the node
and link arrays, the dimensions, and the stabilization bookkeeping. -/
structure ForceSimulation where
  nodes : List Node
  links : List Link
  dimensions : Dimensions
  isStabilizing : Bool
  stabilizationSteps : ℕ
  maxStabilizationSteps : ℕ

/-- The `ForceSimulation` constructor: stores the arguments, sets
`isStabilizing = false`, `stabilizationSteps = 0`,
`maxStabilizationSteps = 120`. -/
def ForceSimulation.init (nodes : List Node) (links : List Link)
    (dims : Dimensions) : ForceSimulation :=
  ⟨nodes, links, dims, false, 0, 120⟩

/-- Method `startStabilization()`: sets `isStabilizing = true` and resets
`stabilizationSteps` to `0`. -/
def ForceSimulation.startStabilization (s : ForceSimulation) : ForceSimulation :=
  { s with isStabilizing := true, stabilizationSteps := 0 }

/-- The `this.nodes.forEach(other => ...)` repulsion callback of `update()`:
fold step accumulating the repulsion exerted on `node` by `other`. -/
def repulsionStep (node : Node) : ℝ × ℝ → Node → ℝ × ℝ := fun f other =>
  if other.id ≠ node.id then
    let dx := node.x - other.x
    let dy := node.y - other.y
    let distance := Real.sqrt (dx * dx + dy * dy)
    if 0 < distance ∧ distance < repulsionDistance then
      let force := repulsionForce / (distance * distance)
      (f.1 + dx / distance * force, f.2 + dy / distance * force)
    else f
  else f

/-- The `this.links.forEach(link => ...)` attraction callback of `update()`:
fold step accumulating the attraction exerted on `node` along `link`, the
other endpoint being looked up by id in `nodes`. -/
def attractionStep (nodes : List Node) (node : Node) : ℝ × ℝ → Link → ℝ × ℝ :=
  fun f link =>
  if link.source = node.id ∨ link.target = node.id then
    let otherId := if link.source = node.id then link.target else link.source
    match nodes.find? (fun n => n.id == otherId) with
    | some other =>
      let dx := other.x - node.x
      let dy := other.y - node.y
      let distance := Real.sqrt (dx * dx + dy * dy)
      if idealDistance < distance then
        let force := attractionForce * (distance - idealDistance)
        (f.1 + dx / distance * force, f.2 + dy / distance * force)
      else f
    | none => f
  else f

/-- The body of the `this.nodes.map(node => ...)` callback in `update()`:
accumulate repulsion over all other nodes and attraction over all touching
links, then damp the velocity and clamp the position. -/
def nodeUpdate (nodes : List Node) (links : List Link) (dims : Dimensions)
    (node : Node) : Node :=
  let f1 : ℝ × ℝ := nodes.foldl (repulsionStep node) (0, 0)
  let f2 : ℝ × ℝ := links.foldl (attractionStep nodes node) f1
  let newVx := (node.vx + f2.1) * damping
  let newVy := (node.vy + f2.2) * damping
  { node with
    vx := newVx
    vy := newVy
    x := max nodePadding (min (dims.width - nodePadding) (node.x + newVx))
    y := max nodePadding (min (dims.height - nodePadding) (node.y + newVy)) }

/-- The `newNodes` array computed by `update()` on each non-gated call. -/
def stepNodes (s : ForceSimulation) : List Node :=
  s.nodes.map (nodeUpdate s.nodes s.links s.dimensions)

/-- Method `update()`: early-return when the node list is empty or either dimension
is zero; otherwise map every node through the force step, and — when a
stabilization run is active — increment the tick counter, clearing
`isStabilizing` once the counter reaches `maxStabilizationSteps`. -/
def ForceSimulation.update (s : ForceSimulation) : ForceSimulation :=
  if s.nodes.length = 0 ∨ s.dimensions.width = 0 ∨ s.dimensions.height = 0 then
    s
  else
    { s with
      nodes := stepNodes s
      stabilizationSteps :=
        if s.isStabilizing then s.stabilizationSteps + 1 else s.stabilizationSteps
      isStabilizing :=
        if s.isStabilizing then
          decide ¬(s.maxStabilizationSteps ≤ s.stabilizationSteps + 1)
        else s.isStabilizing }

/-- Method `isStabilized()`: returns `!this.isStabilizing`. -/
def ForceSimulation.isStabilized (s : ForceSimulation) : Bool :=
  !s.isStabilizing

/-- Method `getProgress()`: returns `this.stabilizationSteps / this.maxStabilizationSteps`. -/
def ForceSimulation.getProgress (s : ForceSimulation) : ℝ :=
  (s.stabilizationSteps : ℝ) / (s.maxStabilizationSteps : ℝ)

/-- The Euclidean distance between two nodes, exactly the
`Math.sqrt(dx*dx + dy*dy)` expression of the source. -/
def nodeDist (n m : Node) : ℝ :=
  Real.sqrt ((n.x - m.x) * (n.x - m.x) + (n.y - m.y) * (n.y - m.y))

/-! ### Basic equational lemmas about `update` -/

theorem update_dims (s : ForceSimulation) : s.update.dimensions = s.dimensions := by
  unfold ForceSimulation.update; split <;> rfl

theorem update_links_eq (s : ForceSimulation) : s.update.links = s.links := by
  unfold ForceSimulation.update; split <;> rfl

theorem update_maxSteps (s : ForceSimulation) :
    s.update.maxStabilizationSteps = s.maxStabilizationSteps := by
  unfold ForceSimulation.update; split <;> rfl

theorem update_gated (s : ForceSimulation)
    (h : s.nodes.length = 0 ∨ s.dimensions.width = 0 ∨ s.dimensions.height = 0) :
    s.update = s := by
  unfold ForceSimulation.update; exact if_pos h

theorem update_nodes_of (s : ForceSimulation) (hn : s.nodes ≠ [])
    (hw : s.dimensions.width ≠ 0) (hh : s.dimensions.height ≠ 0) :
    s.update.nodes = stepNodes s := by
  unfold ForceSimulation.update
  rw [if_neg]
  push_neg
  exact ⟨by simpa using hn, hw, hh⟩

theorem update_steps_of (s : ForceSimulation) (hn : s.nodes ≠ [])
    (hw : s.dimensions.width ≠ 0) (hh : s.dimensions.height ≠ 0) :
    s.update.stabilizationSteps =
      (if s.isStabilizing then s.stabilizationSteps + 1 else s.stabilizationSteps) := by
  unfold ForceSimulation.update
  rw [if_neg]
  push_neg
  exact ⟨by simpa using hn, hw, hh⟩

theorem update_isStabilizing_of (s : ForceSimulation) (hn : s.nodes ≠ [])
    (hw : s.dimensions.width ≠ 0) (hh : s.dimensions.height ≠ 0) :
    s.update.isStabilizing =
      (if s.isStabilizing then
        decide ¬(s.maxStabilizationSteps ≤ s.stabilizationSteps + 1)
      else s.isStabilizing) := by
  unfold ForceSimulation.update
  rw [if_neg]
  push_neg
  exact ⟨by simpa using hn, hw, hh⟩

theorem update_not_stab (s : ForceSimulation) (h : s.isStabilizing = false) :
    s.update.stabilizationSteps = s.stabilizationSteps ∧
      s.update.isStabilizing = false := by
  unfold ForceSimulation.update
  split
  · exact ⟨rfl, h⟩
  · simp [h]

theorem update_nodes_ne (s : ForceSimulation) (h : s.nodes ≠ []) :
    s.update.nodes ≠ [] := by
  by_cases hg : s.nodes.length = 0 ∨ s.dimensions.width = 0 ∨ s.dimensions.height = 0
  · rw [update_gated s hg]; exact h
  · push_neg at hg
    rw [update_nodes_of s h hg.2.1 hg.2.2]
    unfold stepNodes
    simpa using h

theorem update_nodes_nil_iff (s : ForceSimulation) :
    s.update.nodes = [] ↔ s.nodes = [] := by
  constructor
  · intro h
    by_contra hc
    exact update_nodes_ne s hc h
  · intro h
    rw [update_gated s (Or.inl (by simp [h]))]
    exact h

theorem iterate_invariant (s : ForceSimulation) (k : ℕ) :
    (ForceSimulation.update^[k] s).dimensions = s.dimensions ∧
    (ForceSimulation.update^[k] s).links = s.links ∧
    (ForceSimulation.update^[k] s).maxStabilizationSteps = s.maxStabilizationSteps ∧
    ((ForceSimulation.update^[k] s).nodes = [] ↔ s.nodes = []) := by
  induction k with
  | zero => simp
  | succ k ih =>
    rw [Function.iterate_succ_apply']
    obtain ⟨h1, h2, h3, h4⟩ := ih
    exact ⟨(update_dims _).trans h1, (update_links_eq _).trans h2,
      (update_maxSteps _).trans h3, (update_nodes_nil_iff _).trans h4⟩

theorem iterate_not_stab (s : ForceSimulation) (h : s.isStabilizing = false) (k : ℕ) :
    (ForceSimulation.update^[k] s).stabilizationSteps = s.stabilizationSteps ∧
      (ForceSimulation.update^[k] s).isStabilizing = false := by
  induction k with
  | zero => exact ⟨rfl, h⟩
  | succ k ih =>
    rw [Function.iterate_succ_apply']
    obtain ⟨h1, h2⟩ := ih
    obtain ⟨h3, h4⟩ := update_not_stab _ h2
    exact ⟨h3.trans h1, h4⟩

/-! ### Claim C4: degenerate inputs make `update` a complete no-op -/

/-- C4: whenever the node set is empty, or the width is zero, or the height
is zero, `update()` returns the node array unchanged and leaves the whole
engine state (nodes, links, dimensions, tick counter, running flag) exactly
as it was. -/
theorem C4_update_noop (s : ForceSimulation)
    (h : s.nodes = [] ∨ s.dimensions.width = 0 ∨ s.dimensions.height = 0) :
    s.update = s := by
  apply update_gated
  rcases h with h | h | h
  · exact Or.inl (by simp [h])
  · exact Or.inr (Or.inl h)
  · exact Or.inr (Or.inr h)

/-- An engine built on the empty graph with 400×400 dimensions. -/
def emptySim : ForceSimulation := ForceSimulation.init [] [] ⟨400, 400⟩

/-- Witness for C4 at the concrete empty engine of the spec's example. -/
theorem C4_update_noop_witness :
    emptySim.nodes = [] ∧ emptySim.update = emptySim :=
  ⟨rfl, C4_update_noop emptySim (Or.inl rfl)⟩

/-! ### Claim C9: `update` only changes positions and velocities -/

/-- C9: an `update()` call never modifies the link set, and for every node
every field other than `x`, `y`, `vx`, `vy` — its id, labels, color, type,
description and the optional AI fields — is returned unchanged. -/
theorem C9_frame (s : ForceSimulation) :
    s.update.links = s.links ∧
    List.Forall₂ (fun n n' => n'.id = n.id ∧ n'.label = n.label ∧
      n'.shortLabel = n.shortLabel ∧ n'.color = n.color ∧ n'.type = n.type ∧
      n'.description = n.description ∧ n'.aiConfidence = n.aiConfidence ∧
      n'.aiCategory = n.aiCategory) s.nodes s.update.nodes := by
  refine ⟨update_links_eq s, ?_⟩
  by_cases h : s.nodes.length = 0 ∨ s.dimensions.width = 0 ∨ s.dimensions.height = 0
  · rw [update_gated s h]
    exact List.forall₂_same.mpr fun a _ => ⟨rfl, rfl, rfl, rfl, rfl, rfl, rfl, rfl⟩
  · push_neg at h
    rw [update_nodes_of s (by simpa using h.1) h.2.1 h.2.2]
    unfold stepNodes
    rw [List.forall₂_map_right_iff]
    exact List.forall₂_same.mpr fun a _ => ⟨rfl, rfl, rfl, rfl, rfl, rfl, rfl, rfl⟩

/-! ### Claim C10: behaviour before the first `startStabilization` call -/

/-- A sample node placed at the centre of a 400×400 container. -/
def demoNode : Node := ⟨"a", "Alpha", "Alpha", 200, 200, 0, 0, "#B39CD0", "people", "", none, none⟩

/-- The 400×400 container of the spec's examples. -/
def demoDims : Dimensions := ⟨400, 400⟩

/-- C10: on a freshly constructed engine (no `startStabilization()` call),
`isStabilized()` is `true` and `getProgress()` is `0`, and any number of
`update()` calls leaves them so — the tick counter never advances — while
each `update()` call still recomputes the node positions (the position step
is not gated by the running flag). -/
theorem C10_fresh (nodes : List Node) (links : List Link) (dims : Dimensions)
    (hn : nodes ≠ []) (hw : dims.width ≠ 0) (hh : dims.height ≠ 0) (k : ℕ) :
    (ForceSimulation.update^[k] (ForceSimulation.init nodes links dims)).isStabilized = true ∧
    (ForceSimulation.update^[k] (ForceSimulation.init nodes links dims)).getProgress = 0 ∧
    (ForceSimulation.update^[k] (ForceSimulation.init nodes links dims)).stabilizationSteps = 0 ∧
    (ForceSimulation.update^[k + 1] (ForceSimulation.init nodes links dims)).nodes =
      stepNodes (ForceSimulation.update^[k] (ForceSimulation.init nodes links dims)) := by
  obtain ⟨hsteps, hflag⟩ := iterate_not_stab (ForceSimulation.init nodes links dims) rfl k
  obtain ⟨hdim, -, -, hnil⟩ := iterate_invariant (ForceSimulation.init nodes links dims) k
  refine ⟨?_, ?_, hsteps, ?_⟩
  · unfold ForceSimulation.isStabilized
    rw [hflag]
    rfl
  · unfold ForceSimulation.getProgress
    rw [hsteps]
    simp [ForceSimulation.init]
  · rw [Function.iterate_succ_apply']
    exact update_nodes_of _ (fun hc => hn (by simpa [ForceSimulation.init] using hnil.mp hc))
      (by rw [hdim]; exact hw) (by rw [hdim]; exact hh)

/-- Witness for C10: one node, no links, a 400×400 container, three ticks. -/
theorem C10_fresh_witness :
    (ForceSimulation.update^[3] (ForceSimulation.init [demoNode] [] demoDims)).isStabilized = true ∧
    (ForceSimulation.update^[3] (ForceSimulation.init [demoNode] [] demoDims)).getProgress = 0 ∧
    (ForceSimulation.update^[3] (ForceSimulation.init [demoNode] [] demoDims)).stabilizationSteps = 0 ∧
    (ForceSimulation.update^[3 + 1] (ForceSimulation.init [demoNode] [] demoDims)).nodes =
      stepNodes (ForceSimulation.update^[3] (ForceSimulation.init [demoNode] [] demoDims)) :=
  C10_fresh [demoNode] [] demoDims (by simp) (by norm_num [demoDims])
    (by norm_num [demoDims]) 3

/-! ### The stabilization run: tick counter and flag trajectories -/

theorem run_characterization (s : ForceSimulation) (hn : s.nodes ≠ [])
    (hw : s.dimensions.width ≠ 0) (hh : s.dimensions.height ≠ 0)
    (hM : s.maxStabilizationSteps = 120) (k : ℕ) :
    (ForceSimulation.update^[k] s.startStabilization).stabilizationSteps = min k 120 ∧
    (ForceSimulation.update^[k] s.startStabilization).isStabilizing = decide (k < 120) := by
  have hpre : ∀ j : ℕ,
      (ForceSimulation.update^[j] s.startStabilization).nodes ≠ [] ∧
      (ForceSimulation.update^[j] s.startStabilization).dimensions.width ≠ 0 ∧
      (ForceSimulation.update^[j] s.startStabilization).dimensions.height ≠ 0 ∧
      (ForceSimulation.update^[j] s.startStabilization).maxStabilizationSteps = 120 := by
    intro j
    obtain ⟨hd, -, hm, hnil⟩ := iterate_invariant s.startStabilization j
    exact ⟨fun hc => hn (hnil.mp hc), by rw [hd]; exact hw, by rw [hd]; exact hh,
      by rw [hm]; exact hM⟩
  induction k with
  | zero =>
    exact ⟨by simp [ForceSimulation.startStabilization],
      by simp [ForceSimulation.startStabilization]⟩
  | succ k ih =>
    obtain ⟨hsteps, hflag⟩ := ih
    obtain ⟨h1, h2, h3, h4⟩ := hpre k
    rw [Function.iterate_succ_apply',
      update_steps_of _ h1 h2 h3, update_isStabilizing_of _ h1 h2 h3, hsteps, hflag, h4]
    by_cases hk : k < 120
    · rw [if_pos (by simp [hk]), if_pos (by simp [hk])]
      refine ⟨by omega, ?_⟩
      rw [decide_eq_decide]
      omega
    · rw [if_neg (by simp [hk]), if_neg (by simp [hk])]
      refine ⟨by omega, ?_⟩
      rw [decide_eq_decide]
      omega

/-! ### Claim C2: the stabilization protocol -/

/-- C2: immediately after `startStabilization()` the query `isStabilized()`
returns `false`; during a run on a non-empty node set with non-zero
dimensions, after `k` calls to `update()` the tick counter holds
`min k 120` — it advances by exactly one per call, starting from `0`, until
it reaches `maxStabilizationSteps = 120` — and `isStabilized()` is `true`
exactly when at least `120` ticks have happened: never before, and — the
condition `120 ≤ k` being monotone in `k` — never flipping back to `false`
until `startStabilization()` is called again. -/
theorem C2_stabilization_protocol (s : ForceSimulation) (hn : s.nodes ≠ [])
    (hw : s.dimensions.width ≠ 0) (hh : s.dimensions.height ≠ 0)
    (hM : s.maxStabilizationSteps = 120) (k : ℕ) :
    s.startStabilization.isStabilized = false ∧
    (ForceSimulation.update^[k] s.startStabilization).stabilizationSteps = min k 120 ∧
    ((ForceSimulation.update^[k] s.startStabilization).isStabilized = true ↔ 120 ≤ k) := by
  obtain ⟨h1, h2⟩ := run_characterization s hn hw hh hM k
  refine ⟨rfl, h1, ?_⟩
  unfold ForceSimulation.isStabilized
  rw [h2]
  simp [not_lt]

/-- Witness for C2: one node, no links, 400×400 dimensions, 120 ticks. -/
theorem C2_stabilization_protocol_witness :
    (ForceSimulation.init [demoNode] [] demoDims).startStabilization.isStabilized = false ∧
    (ForceSimulation.update^[120]
      (ForceSimulation.init [demoNode] [] demoDims).startStabilization).stabilizationSteps = min 120 120 ∧
    ((ForceSimulation.update^[120]
      (ForceSimulation.init [demoNode] [] demoDims).startStabilization).isStabilized = true ↔ 120 ≤ 120) :=
  C2_stabilization_protocol (ForceSimulation.init [demoNode] [] demoDims)
    (by simp [ForceSimulation.init]) (by norm_num [ForceSimulation.init, demoDims])
    (by norm_num [ForceSimulation.init, demoDims]) rfl 120

/-! ### Claim C3: progress reporting -/

/-- C3: during a run on a non-empty node set with non-zero dimensions,
`getProgress()` returns `stabilizationSteps / maxStabilizationSteps`
(after `k` ticks, `min k 120 / 120`), is monotonically non-decreasing from
one `update()` call to the next, always lies in `[0, 1]`, and equals `1`
exactly when `isStabilized()` is `true` — in particular at the first moment
it becomes true. -/
theorem C3_progress (s : ForceSimulation) (hn : s.nodes ≠ [])
    (hw : s.dimensions.width ≠ 0) (hh : s.dimensions.height ≠ 0)
    (hM : s.maxStabilizationSteps = 120) (k : ℕ) :
    (ForceSimulation.update^[k] s.startStabilization).getProgress
        = ((min k 120 : ℕ) : ℝ) / 120 ∧
    (ForceSimulation.update^[k] s.startStabilization).getProgress ≤
      (ForceSimulation.update^[k + 1] s.startStabilization).getProgress ∧
    0 ≤ (ForceSimulation.update^[k] s.startStabilization).getProgress ∧
    (ForceSimulation.update^[k] s.startStabilization).getProgress ≤ 1 ∧
    ((ForceSimulation.update^[k] s.startStabilization).getProgress = 1 ↔
      (ForceSimulation.update^[k] s.startStabilization).isStabilized = true) := by
  have hprog : ∀ j : ℕ,
      (ForceSimulation.update^[j] s.startStabilization).getProgress
        = ((min j 120 : ℕ) : ℝ) / 120 := by
    intro j
    obtain ⟨hsteps, -⟩ := run_characterization s hn hw hh hM j
    obtain ⟨-, -, hm, -⟩ := iterate_invariant s.startStabilization j
    have hm2 : s.startStabilization.maxStabilizationSteps = 120 := hM
    unfold ForceSimulation.getProgress
    rw [hsteps, hm, hm2]
    norm_num
  obtain ⟨-, hflag⟩ := run_characterization s hn hw hh hM k
  refine ⟨hprog k, ?_, ?_, ?_, ?_⟩
  · rw [hprog k, hprog (k + 1)]
    rw [div_le_div_iff_of_pos_right (by norm_num : (0:ℝ) < 120)]
    exact_mod_cast min_le_min (Nat.le_succ k) le_rfl
  · rw [hprog k]
    positivity
  · rw [hprog k]
    rw [div_le_one (by norm_num : (0:ℝ) < 120)]
    exact_mod_cast Nat.min_le_right k 120
  · rw [hprog k]
    unfold ForceSimulation.isStabilized
    rw [hflag]
    rw [div_eq_one_iff_eq (by norm_num : (120:ℝ) ≠ 0)]
    have : ((min k 120 : ℕ) : ℝ) = (120 : ℝ) ↔ min k 120 = 120 := by
      exact_mod_cast Iff.rfl
    rw [this]
    simp [not_lt]

/-- Witness for C3: one node, no links, 400×400 dimensions, 60 ticks. -/
theorem C3_progress_witness :
    (ForceSimulation.update^[60]
        (ForceSimulation.init [demoNode] [] demoDims).startStabilization).getProgress
        = ((min 60 120 : ℕ) : ℝ) / 120 ∧
    (ForceSimulation.update^[60]
        (ForceSimulation.init [demoNode] [] demoDims).startStabilization).getProgress ≤
      (ForceSimulation.update^[60 + 1]
        (ForceSimulation.init [demoNode] [] demoDims).startStabilization).getProgress ∧
    0 ≤ (ForceSimulation.update^[60]
        (ForceSimulation.init [demoNode] [] demoDims).startStabilization).getProgress ∧
    (ForceSimulation.update^[60]
        (ForceSimulation.init [demoNode] [] demoDims).startStabilization).getProgress ≤ 1 ∧
    ((ForceSimulation.update^[60]
        (ForceSimulation.init [demoNode] [] demoDims).startStabilization).getProgress = 1 ↔
      (ForceSimulation.update^[60]
        (ForceSimulation.init [demoNode] [] demoDims).startStabilization).isStabilized = true) :=
  C3_progress (ForceSimulation.init [demoNode] [] demoDims)
    (by simp [ForceSimulation.init]) (by norm_num [ForceSimulation.init, demoDims])
    (by norm_num [ForceSimulation.init, demoDims]) rfl 60

/-! ### Claim C1: clamping -/

theorem nodeUpdate_bounds (nodes : List Node) (links : List Link)
    (dims : Dimensions) (node : Node) :
    nodePadding ≤ (nodeUpdate nodes links dims node).x ∧
    (nodeUpdate nodes links dims node).x ≤ max nodePadding (dims.width - nodePadding) ∧
    nodePadding ≤ (nodeUpdate nodes links dims node).y ∧
    (nodeUpdate nodes links dims node).y ≤ max nodePadding (dims.height - nodePadding) :=
  ⟨le_max_left _ _, max_le_max le_rfl (min_le_left _ _),
   le_max_left _ _, max_le_max le_rfl (min_le_left _ _)⟩

/-- C1 (amended): with non-zero dimensions, after any positive number of
`update()` calls every node's `x` lies in
`[nodePadding, max nodePadding (width - nodePadding)]` and its `y` in
`[nodePadding, max nodePadding (height - nodePadding)]`.  When each
dimension is at least twice the padding these are exactly the intervals
`[nodePadding, dimension - nodePadding]` of the original claim; for smaller
dimensions the upper bound is `nodePadding` itself, not
`dimension - nodePadding`. -/
theorem C1_positions_clamped (s : ForceSimulation) (hw : s.dimensions.width ≠ 0)
    (hh : s.dimensions.height ≠ 0) (k : ℕ) :
    ∀ n ∈ (ForceSimulation.update^[k + 1] s).nodes,
      nodePadding ≤ n.x ∧ n.x ≤ max nodePadding (s.dimensions.width - nodePadding) ∧
      nodePadding ≤ n.y ∧ n.y ≤ max nodePadding (s.dimensions.height - nodePadding) := by
  intro n hmem
  rw [Function.iterate_succ_apply'] at hmem
  obtain ⟨hdim, -, -, -⟩ := iterate_invariant s k
  by_cases hnil : (ForceSimulation.update^[k] s).nodes = []
  · rw [update_gated _ (Or.inl (by simp [hnil])), hnil] at hmem
    exact absurd hmem (List.not_mem_nil n)
  · rw [update_nodes_of _ hnil (by rw [hdim]; exact hw) (by rw [hdim]; exact hh)] at hmem
    unfold stepNodes at hmem
    obtain ⟨m, -, rfl⟩ := List.mem_map.mp hmem
    rw [← hdim]
    exact nodeUpdate_bounds (ForceSimulation.update^[k] s).nodes
      (ForceSimulation.update^[k] s).links (ForceSimulation.update^[k] s).dimensions m

/-- Witness for C1 (amended): one node, no links, 400×400, one tick. -/
theorem C1_positions_clamped_witness :
    nodePadding ≤ (nodeUpdate [demoNode] [] demoDims demoNode).x ∧
    (nodeUpdate [demoNode] [] demoDims demoNode).x ≤
      max nodePadding (demoDims.width - nodePadding) ∧
    nodePadding ≤ (nodeUpdate [demoNode] [] demoDims demoNode).y ∧
    (nodeUpdate [demoNode] [] demoDims demoNode).y ≤
      max nodePadding (demoDims.height - nodePadding) :=
  C1_positions_clamped (ForceSimulation.init [demoNode] [] demoDims)
    (by norm_num [ForceSimulation.init, demoDims])
    (by norm_num [ForceSimulation.init, demoDims]) 0
    (nodeUpdate [demoNode] [] demoDims demoNode)
    (by
      rw [Function.iterate_one,
        update_nodes_of _ (by simp [ForceSimulation.init])
          (by norm_num [ForceSimulation.init, demoDims])
          (by norm_num [ForceSimulation.init, demoDims])]
      exact List.mem_singleton.mpr rfl)

/-- A 1×1 container: non-zero dimensions smaller than twice the padding. -/
def tinyDims : Dimensions := ⟨1, 1⟩

/-- A single node at the origin, at rest. -/
def originNode : Node := ⟨"o", "Origin", "Origin", 0, 0, 0, 0, "", "", "", none, none⟩

/-- The engine on the 1×1 container holding only `originNode`. -/
def tinySim : ForceSimulation := ForceSimulation.init [originNode] [] tinyDims

/-- C1 counterexample: with the non-zero dimensions 1×1 (smaller than twice
the padding 80), one `update()` call puts the node's `x` at `nodePadding = 80`,
which is NOT inside `[nodePadding, width - nodePadding] = [80, -79]`: the
claim's interval bound fails for dimensions below twice the padding. -/
theorem C1_counterexample :
    tinyDims.width ≠ 0 ∧ tinyDims.height ≠ 0 ∧
    tinySim.update.nodes.headI.x = nodePadding ∧
    ¬(tinySim.update.nodes.headI.x ≤ tinyDims.width - nodePadding) := by
  have hnodes : tinySim.update.nodes = [nodeUpdate [originNode] [] tinyDims originNode] := by
    rw [update_nodes_of _ (by simp [tinySim, ForceSimulation.init])
      (by norm_num [tinySim, ForceSimulation.init, tinyDims])
      (by norm_num [tinySim, ForceSimulation.init, tinyDims])]
    rfl
  have hx : (nodeUpdate [originNode] [] tinyDims originNode).x = nodePadding := by
    unfold nodeUpdate repulsionStep attractionStep
    norm_num [List.foldl_cons, List.foldl_nil, originNode, tinyDims, nodePadding,
      damping, min_def, max_def]
  refine ⟨by norm_num [tinyDims], by norm_num [tinyDims], ?_, ?_⟩
  · rw [hnodes]
    simpa using hx
  · rw [hnodes]
    simp only [List.headI]
    rw [hx]
    norm_num [tinyDims, nodePadding]

/-! ### Claim C5: coincident node pair -/

/-- C5: with exactly two nodes at the same position with zero velocity and
no links, one `update()` call leaves both nodes exactly where they were
(their position being inside the clamping bounds): the zero-distance
repulsion pair is skipped by the `distance > 0` guard, so no division by
zero is performed and no coordinate changes. -/
theorem C5_coincident_pair (s : ForceSimulation) (a b : Node)
    (hnodes : s.nodes = [a, b]) (hlinks : s.links = [])
    (hid : a.id ≠ b.id) (hbx : b.x = a.x) (hby : b.y = a.y)
    (havx : a.vx = 0) (havy : a.vy = 0) (hbvx : b.vx = 0) (hbvy : b.vy = 0)
    (hx1 : nodePadding ≤ a.x) (hx2 : a.x ≤ s.dimensions.width - nodePadding)
    (hy1 : nodePadding ≤ a.y) (hy2 : a.y ≤ s.dimensions.height - nodePadding) :
    s.update.nodes = s.nodes := by
  have hw : s.dimensions.width ≠ 0 := by
    intro h
    rw [h] at hx2
    unfold nodePadding at hx1 hx2
    linarith
  have hh : s.dimensions.height ≠ 0 := by
    intro h
    rw [h] at hy2
    unfold nodePadding at hy1 hy2
    linarith
  have hzero : Real.sqrt ((a.x - b.x) * (a.x - b.x) + (a.y - b.y) * (a.y - b.y)) = 0 := by
    rw [hbx, hby]
    simp
  have hzero' : Real.sqrt ((b.x - a.x) * (b.x - a.x) + (b.y - a.y) * (b.y - a.y)) = 0 := by
    rw [hbx, hby]
    simp
  have ha : nodeUpdate s.nodes s.links s.dimensions a = a := by
    rw [hnodes, hlinks]
    unfold nodeUpdate repulsionStep attractionStep
    simp only [List.foldl_cons, List.foldl_nil, ne_eq, not_true_eq_false, if_false,
      if_neg (not_not_intro (rfl : a.id = a.id)), if_pos (Ne.symm hid), hzero,
      lt_irrefl, false_and, if_neg (by simp : ¬(0 < (0:ℝ) ∧ (0:ℝ) < repulsionDistance))]
    rw [havx, havy]
    simp only [add_zero, zero_add, zero_mul]
    have hxx : max nodePadding (min (s.dimensions.width - nodePadding) a.x) = a.x := by
      rw [min_eq_right hx2, max_eq_right hx1]
    have hyy : max nodePadding (min (s.dimensions.height - nodePadding) a.y) = a.y := by
      rw [min_eq_right hy2, max_eq_right hy1]
    ext <;> simp [hxx, hyy, havx, havy]
  have hb : nodeUpdate s.nodes s.links s.dimensions b = b := by
    rw [hnodes, hlinks]
    unfold nodeUpdate repulsionStep attractionStep
    simp only [List.foldl_cons, List.foldl_nil, ne_eq, not_true_eq_false, if_false,
      if_neg (not_not_intro (rfl : b.id = b.id)), if_pos hid, hzero',
      lt_irrefl, false_and, if_neg (by simp : ¬(0 < (0:ℝ) ∧ (0:ℝ) < repulsionDistance))]
    rw [hbvx, hbvy]
    simp only [add_zero, zero_add, zero_mul]
    have hxx : max nodePadding (min (s.dimensions.width - nodePadding) b.x) = b.x := by
      rw [hbx, min_eq_right hx2, max_eq_right hx1]
    have hyy : max nodePadding (min (s.dimensions.height - nodePadding) b.y) = b.y := by
      rw [hby, min_eq_right hy2, max_eq_right hy1]
    ext <;> simp [hxx, hyy, hbvx, hbvy]
  rw [update_nodes_of s (by rw [hnodes]; simp) hw hh]
  unfold stepNodes
  rw [hnodes]
  simp only [List.map_cons, List.map_nil]
  rw [← hnodes, ha, hb]
  exact hnodes.symm

/-- Two coincident nodes at the centre of the 400×400 container. -/
def coincNodeA : Node := ⟨"a", "A", "A", 200, 200, 0, 0, "", "", "", none, none⟩

/-- Second coincident node (distinct id, same position). -/
def coincNodeB : Node := ⟨"b", "B", "B", 200, 200, 0, 0, "", "", "", none, none⟩

/-- The engine holding exactly the two coincident nodes and no links. -/
def coincSim : ForceSimulation :=
  ForceSimulation.init [coincNodeA, coincNodeB] [] demoDims

/-- Witness for C5 at the concrete coincident pair. -/
theorem C5_coincident_pair_witness : coincSim.update.nodes = coincSim.nodes :=
  C5_coincident_pair coincSim coincNodeA coincNodeB rfl rfl
    (by simp [coincNodeA, coincNodeB]) rfl rfl rfl rfl rfl rfl
    (by norm_num [coincNodeA, nodePadding])
    (by norm_num [coincNodeA, coincSim, ForceSimulation.init, demoDims, nodePadding])
    (by norm_num [coincNodeA, nodePadding])
    (by norm_num [coincNodeA, coincSim, ForceSimulation.init, demoDims, nodePadding])

/-! ### Claim C6: behaviour after a run has completed -/

/-- A node with residual velocity `vx = 1`, inside the 400×400 bounds. -/
def movingNode : Node := ⟨"m", "M", "M", 100, 100, 1, 0, "", "", "", none, none⟩

/-- An engine exactly at the moment stabilization completed: the tick
counter has reached the budget of 120 and the running flag is false. -/
def stabilizedSim : ForceSimulation := ⟨[movingNode], [], ⟨400, 400⟩, false, 120, 120⟩

/-- C6 counterexample: on a stabilized engine (counter at the maximum,
running flag false) holding one node with residual velocity 1, a further
`update()` call moves the node from `x = 100` to `x = 100.9`: positions are
NOT frozen once stabilization completes. -/
theorem C6_counterexample :
    stabilizedSim.isStabilized = true ∧
    stabilizedSim.stabilizationSteps = stabilizedSim.maxStabilizationSteps ∧
    stabilizedSim.nodes.headI.x = 100 ∧
    stabilizedSim.update.nodes.headI.x = 1009 / 10 ∧
    ((1009 : ℝ) / 10 ≠ 100) := by
  have hnodes : stabilizedSim.update.nodes
      = [nodeUpdate [movingNode] [] ⟨400, 400⟩ movingNode] := by
    rw [update_nodes_of _ (by simp [stabilizedSim])
      (by norm_num [stabilizedSim]) (by norm_num [stabilizedSim])]
    rfl
  have hx : (nodeUpdate [movingNode] [] ⟨400, 400⟩ movingNode).x = 1009 / 10 := by
    unfold nodeUpdate repulsionStep attractionStep
    norm_num [List.foldl_cons, List.foldl_nil, movingNode, nodePadding,
      damping, min_def, max_def]
  refine ⟨rfl, rfl, by norm_num [stabilizedSim, movingNode], ?_, by norm_num⟩
  rw [hnodes]
  simpa using hx

/-- C6 (amended): once the running flag is false, further `update()` calls
leave the tick counter and the running flag unchanged — but they do NOT
stop computing position changes: each non-gated call still recomputes every
node through the same force/velocity/clamp step as during a run.  Only the
empty-node-set / zero-dimension guard makes `update()` a position no-op;
callers must stop invoking `update()` to freeze the layout. -/
theorem C6_after_stabilization (s : ForceSimulation) (h : s.isStabilizing = false) :
    s.update.stabilizationSteps = s.stabilizationSteps ∧
    s.update.isStabilizing = false ∧
    s.update.nodes =
      (if s.nodes.length = 0 ∨ s.dimensions.width = 0 ∨ s.dimensions.height = 0 then
        s.nodes
      else stepNodes s) := by
  obtain ⟨h1, h2⟩ := update_not_stab s h
  refine ⟨h1, h2, ?_⟩
  unfold ForceSimulation.update
  split <;> rfl

/-- Witness for C6 (amended) at the concrete stabilized engine. -/
theorem C6_after_stabilization_witness :
    stabilizedSim.update.stabilizationSteps = stabilizedSim.stabilizationSteps ∧
    stabilizedSim.update.isStabilizing = false ∧
    stabilizedSim.update.nodes =
      (if stabilizedSim.nodes.length = 0 ∨ stabilizedSim.dimensions.width = 0 ∨
          stabilizedSim.dimensions.height = 0 then
        stabilizedSim.nodes
      else stepNodes stabilizedSim) :=
  C6_after_stabilization stabilizedSim rfl

/-! ### Claim C7: the per-tick formula and the synchronous update -/

/-- Modelled from the spec's wording for C7: the repulsion exerted on
`node` by `other` — applied only when `0 < distance < repulsionDistance`,
magnitude `repulsionForce / distance²`, directed along the vector from
`other` to `node`. -/
def specPairRepulsion (node other : Node) : ℝ × ℝ :=
  let dx := node.x - other.x
  let dy := node.y - other.y
  let distance := Real.sqrt (dx * dx + dy * dy)
  if 0 < distance ∧ distance < repulsionDistance then
    (dx / distance * (repulsionForce / (distance * distance)),
     dy / distance * (repulsionForce / (distance * distance)))
  else (0, 0)

/-- Modelled from the spec's wording for C7: the attraction exerted on
`node` along `link` — only for links touching `node`, only when the pair's
distance exceeds `idealDistance`, magnitude
`attractionForce × (distance − idealDistance)`, directed toward the other
endpoint (resolved by id lookup in `nodes`). -/
def specLinkAttraction (nodes : List Node) (node : Node) (link : Link) : ℝ × ℝ :=
  if link.source = node.id ∨ link.target = node.id then
    let otherId := if link.source = node.id then link.target else link.source
    match nodes.find? (fun n => n.id == otherId) with
    | some other =>
      let dx := other.x - node.x
      let dy := other.y - node.y
      let distance := Real.sqrt (dx * dx + dy * dy)
      if idealDistance < distance then
        (dx / distance * (attractionForce * (distance - idealDistance)),
         dy / distance * (attractionForce * (distance - idealDistance)))
      else (0, 0)
    | none => (0, 0)
  else (0, 0)

/-- The accumulated force on `node`: the sum over every other node of the
pair repulsion plus the sum over every link of the link attraction. -/
def specForce (nodes : List Node) (links : List Link) (node : Node) : ℝ × ℝ :=
  ((nodes.map fun other =>
      if other.id ≠ node.id then (specPairRepulsion node other).1 else 0).sum +
    (links.map fun link => (specLinkAttraction nodes node link).1).sum,
   (nodes.map fun other =>
      if other.id ≠ node.id then (specPairRepulsion node other).2 else 0).sum +
    (links.map fun link => (specLinkAttraction nodes node link).2).sum)

/-- The spec's per-node step: `new velocity = (old velocity + force) ×
damping`, `new position = clamp(old position + new velocity)`, the force
read off the start-of-tick node list. -/
def specNodeStep (nodes : List Node) (links : List Link) (dims : Dimensions)
    (node : Node) : Node :=
  let F := specForce nodes links node
  let newVx := (node.vx + F.1) * damping
  let newVy := (node.vy + F.2) * damping
  { node with
    vx := newVx
    vy := newVy
    x := max nodePadding (min (dims.width - nodePadding) (node.x + newVx))
    y := max nodePadding (min (dims.height - nodePadding) (node.y + newVy)) }

theorem foldl_add_pair {α : Type} (g1 g2 : α → ℝ) (step : ℝ × ℝ → α → ℝ × ℝ)
    (hstep : ∀ q o, step q o = (q.1 + g1 o, q.2 + g2 o)) :
    ∀ (l : List α) (p : ℝ × ℝ),
      l.foldl step p = (p.1 + (l.map g1).sum, p.2 + (l.map g2).sum) := by
  intro l
  induction l with
  | nil =>
    intro p
    simp
  | cons o t ih =>
    intro p
    rw [List.foldl_cons, ih (step p o), hstep]
    simp [add_assoc]

theorem repulsionStep_eq (node : Node) (q : ℝ × ℝ) (o : Node) :
    repulsionStep node q o =
      (q.1 + (if o.id ≠ node.id then (specPairRepulsion node o).1 else 0),
       q.2 + (if o.id ≠ node.id then (specPairRepulsion node o).2 else 0)) := by
  unfold repulsionStep specPairRepulsion
  by_cases h1 : o.id ≠ node.id
  · simp only [if_pos h1]
    split_ifs with h2
    · rfl
    · simp
  · simp only [if_neg h1]
    simp

theorem attractionStep_eq (nodes : List Node) (node : Node) (q : ℝ × ℝ) (l : Link) :
    attractionStep nodes node q l =
      (q.1 + (specLinkAttraction nodes node l).1,
       q.2 + (specLinkAttraction nodes node l).2) := by
  unfold attractionStep specLinkAttraction
  by_cases h1 : l.source = node.id ∨ l.target = node.id
  · simp only [if_pos h1]
    rcases hf : nodes.find?
        (fun n => n.id == (if l.source = node.id then l.target else l.source)) with - | other
    · rw [hf]
      simp
    · rw [hf]
      dsimp only
      split_ifs with h2
      · rfl
      · simp
  · simp only [if_neg h1]
    simp

theorem nodeUpdate_eq_spec (nodes : List Node) (links : List Link)
    (dims : Dimensions) (node : Node) :
    nodeUpdate nodes links dims node = specNodeStep nodes links dims node := by
  simp only [nodeUpdate, specNodeStep, specForce]
  rw [foldl_add_pair
        (fun o => if o.id ≠ node.id then (specPairRepulsion node o).1 else 0)
        (fun o => if o.id ≠ node.id then (specPairRepulsion node o).2 else 0)
        (repulsionStep node) (repulsionStep_eq node) nodes (0, 0),
      foldl_add_pair
        (fun l => (specLinkAttraction nodes node l).1)
        (fun l => (specLinkAttraction nodes node l).2)
        (attractionStep nodes node) (attractionStep_eq nodes node) links _]
  simp

/-- C7: on a non-empty node set with non-zero dimensions, `update()` maps
every node through the spec's formula: accumulated force = sum of per-pair
repulsions (only for `0 < distance < repulsionDistance`, magnitude
`repulsionForce/distance²`) plus per-link attractions (only for
`distance > idealDistance`, magnitude
`attractionForce × (distance − idealDistance)`); new velocity =
`(old velocity + force) × damping`, new position =
`clamp(old position + new velocity)` — all read from the start-of-tick node
list `s.nodes`, so the result of each node is a function of the old
generation only, independent of processing order. -/
theorem C7_tick_formula (s : ForceSimulation) (hn : s.nodes ≠ [])
    (hw : s.dimensions.width ≠ 0) (hh : s.dimensions.height ≠ 0) :
    s.update.nodes = s.nodes.map (specNodeStep s.nodes s.links s.dimensions) := by
  rw [update_nodes_of s hn hw hh]
  unfold stepNodes
  exact List.map_congr_left fun n _ => nodeUpdate_eq_spec s.nodes s.links s.dimensions n

/-- Witness for C7 at a concrete two-node, one-link engine. -/
theorem C7_tick_formula_witness :
    (ForceSimulation.init [coincNodeA, coincNodeB] [⟨"a", "b", false⟩] demoDims).update.nodes =
      [coincNodeA, coincNodeB].map
        (specNodeStep [coincNodeA, coincNodeB] [⟨"a", "b", false⟩] demoDims) :=
  C7_tick_formula (ForceSimulation.init [coincNodeA, coincNodeB] [⟨"a", "b", false⟩] demoDims)
    (by simp [ForceSimulation.init])
    (by norm_num [ForceSimulation.init, demoDims])
    (by norm_num [ForceSimulation.init, demoDims])

/-! ### Two-node, one-link configurations (for claim C8) -/

theorem nodeDist_horizontal (n m : Node) (h : n.y = m.y) :
    nodeDist n m = |n.x - m.x| := by
  unfold nodeDist
  rw [show (n.x - m.x) * (n.x - m.x) + (n.y - m.y) * (n.y - m.y) = (n.x - m.x) ^ 2 by
    rw [h]; ring]
  exact Real.sqrt_sq_eq_abs _

theorem repulsionFold_two_a (a b : Node) (hid : a.id ≠ b.id) (hy : a.y = b.y)
    (hd : 0 < b.x - a.x) :
    List.foldl (repulsionStep a) (0, 0) [a, b] =
      ((if b.x - a.x < repulsionDistance then
          -(repulsionForce / ((b.x - a.x) * (b.x - a.x))) else 0), 0) := by
  have hdy : a.y - b.y = 0 := by rw [hy]; ring
  have hdist : Real.sqrt ((a.x - b.x) * (a.x - b.x) + (a.y - b.y) * (a.y - b.y))
      = b.x - a.x := by
    rw [show (a.x - b.x) * (a.x - b.x) + (a.y - b.y) * (a.y - b.y) = (b.x - a.x) ^ 2 by
      rw [hdy]; ring]
    exact Real.sqrt_sq hd.le
  simp only [List.foldl_cons, List.foldl_nil]
  rw [show repulsionStep a (0, 0) a = (0, 0) by simp [repulsionStep]]
  simp only [repulsionStep]
  rw [if_pos (Ne.symm hid), hdist, hdy]
  by_cases hr : b.x - a.x < repulsionDistance
  · rw [if_pos ⟨hd, hr⟩, if_pos hr, Prod.ext_iff]
    constructor
    · show 0 + (a.x - b.x) / (b.x - a.x) * (repulsionForce / ((b.x - a.x) * (b.x - a.x))) = _
      rw [show a.x - b.x = -(b.x - a.x) by ring, neg_div, div_self hd.ne']
      ring
    · show 0 + 0 / (b.x - a.x) * _ = 0
      simp
  · rw [if_neg (fun hc => hr hc.2), if_neg hr]

theorem repulsionFold_two_b (a b : Node) (hid : a.id ≠ b.id) (hy : a.y = b.y)
    (hd : 0 < b.x - a.x) :
    List.foldl (repulsionStep b) (0, 0) [a, b] =
      ((if b.x - a.x < repulsionDistance then
          repulsionForce / ((b.x - a.x) * (b.x - a.x)) else 0), 0) := by
  have hdy : b.y - a.y = 0 := by rw [hy]; ring
  have hdist : Real.sqrt ((b.x - a.x) * (b.x - a.x) + (b.y - a.y) * (b.y - a.y))
      = b.x - a.x := by
    rw [show (b.x - a.x) * (b.x - a.x) + (b.y - a.y) * (b.y - a.y) = (b.x - a.x) ^ 2 by
      rw [hdy]; ring]
    exact Real.sqrt_sq hd.le
  simp only [List.foldl_cons, List.foldl_nil]
  rw [show ∀ X : ℝ × ℝ, repulsionStep b X b = X from fun X => by simp [repulsionStep]]
  simp only [repulsionStep]
  rw [if_pos hid, hdist, hdy]
  by_cases hr : b.x - a.x < repulsionDistance
  · rw [if_pos ⟨hd, hr⟩, if_pos hr, Prod.ext_iff]
    constructor
    · show 0 + (b.x - a.x) / (b.x - a.x) * (repulsionForce / ((b.x - a.x) * (b.x - a.x))) = _
      rw [div_self hd.ne']
      ring
    · show 0 + 0 / (b.x - a.x) * _ = 0
      simp
  · rw [if_neg (fun hc => hr hc.2), if_neg hr]

theorem specLinkAttraction_two_a (a b : Node) (l : Link)
    (hid : a.id ≠ b.id) (hsrc : l.source = a.id) (htgt : l.target = b.id)
    (hy : a.y = b.y) (hd : 0 < b.x - a.x) :
    specLinkAttraction [a, b] a l =
      ((if idealDistance < b.x - a.x then
          attractionForce * ((b.x - a.x) - idealDistance) else 0), 0) := by
  have hdy : b.y - a.y = 0 := by rw [hy]; ring
  have hdist : Real.sqrt ((b.x - a.x) * (b.x - a.x) + (b.y - a.y) * (b.y - a.y))
      = b.x - a.x := by
    rw [show (b.x - a.x) * (b.x - a.x) + (b.y - a.y) * (b.y - a.y) = (b.x - a.x) ^ 2 by
      rw [hdy]; ring]
    exact Real.sqrt_sq hd.le
  simp only [specLinkAttraction]
  rw [hsrc, htgt, if_pos (Or.inl rfl), if_pos rfl]
  rw [show List.find? (fun n => n.id == b.id) [a, b] = some b from by
    rw [List.find?_cons_of_neg _ (by simpa using hid)]
    rw [List.find?_cons_of_pos _ (by simp)]]
  dsimp only
  rw [hdist, hdy]
  by_cases hI : idealDistance < b.x - a.x
  · rw [if_pos hI, if_pos hI, Prod.ext_iff]
    constructor
    · show (b.x - a.x) / (b.x - a.x) * (attractionForce * ((b.x - a.x) - idealDistance)) = _
      rw [div_self hd.ne']
      ring
    · show 0 / (b.x - a.x) * _ = 0
      simp
  · rw [if_neg hI, if_neg hI]

theorem specLinkAttraction_two_b (a b : Node) (l : Link)
    (hid : a.id ≠ b.id) (hsrc : l.source = a.id) (htgt : l.target = b.id)
    (hy : a.y = b.y) (hd : 0 < b.x - a.x) :
    specLinkAttraction [a, b] b l =
      ((if idealDistance < b.x - a.x then
          -(attractionForce * ((b.x - a.x) - idealDistance)) else 0), 0) := by
  have hdy : a.y - b.y = 0 := by rw [hy]; ring
  have hdist : Real.sqrt ((a.x - b.x) * (a.x - b.x) + (a.y - b.y) * (a.y - b.y))
      = b.x - a.x := by
    rw [show (a.x - b.x) * (a.x - b.x) + (a.y - b.y) * (a.y - b.y) = (b.x - a.x) ^ 2 by
      rw [hdy]; ring]
    exact Real.sqrt_sq hd.le
  have hsb : l.source ≠ b.id := by rw [hsrc]; exact hid
  simp only [specLinkAttraction]
  rw [htgt, if_pos (Or.inr rfl), if_neg hsb, hsrc]
  rw [show List.find? (fun n => n.id == a.id) [a, b] = some a from by
    rw [List.find?_cons_of_pos _ (by simp)]]
  dsimp only
  rw [hdist, hdy]
  by_cases hI : idealDistance < b.x - a.x
  · rw [if_pos hI, if_pos hI, Prod.ext_iff]
    constructor
    · show (a.x - b.x) / (b.x - a.x) * (attractionForce * ((b.x - a.x) - idealDistance)) = _
      rw [show a.x - b.x = -(b.x - a.x) by ring, neg_div, div_self hd.ne']
      ring
    · show 0 / (b.x - a.x) * _ = 0
      simp
  · rw [if_neg hI, if_neg hI]

theorem nodeUpdate_two_a (a b : Node) (l : Link) (dims : Dimensions)
    (hid : a.id ≠ b.id) (hsrc : l.source = a.id) (htgt : l.target = b.id)
    (hy : a.y = b.y) (hd : 0 < b.x - a.x) :
    nodeUpdate [a, b] [l] dims a =
      { a with
        vx := (a.vx + ((if b.x - a.x < repulsionDistance then
            -(repulsionForce / ((b.x - a.x) * (b.x - a.x))) else 0) +
          (if idealDistance < b.x - a.x then
            attractionForce * ((b.x - a.x) - idealDistance) else 0))) * damping
        vy := a.vy * damping
        x := max nodePadding (min (dims.width - nodePadding)
          (a.x + (a.vx + ((if b.x - a.x < repulsionDistance then
              -(repulsionForce / ((b.x - a.x) * (b.x - a.x))) else 0) +
            (if idealDistance < b.x - a.x then
              attractionForce * ((b.x - a.x) - idealDistance) else 0))) * damping))
        y := max nodePadding (min (dims.height - nodePadding)
          (a.y + a.vy * damping)) } := by
  simp only [nodeUpdate, List.foldl_cons, List.foldl_nil]
  rw [show repulsionStep a (repulsionStep a (0, 0) a) b
      = List.foldl (repulsionStep a) (0, 0) [a, b] from rfl]
  rw [repulsionFold_two_a a b hid hy hd]
  rw [attractionStep_eq, specLinkAttraction_two_a a b l hid hsrc htgt hy hd]
  ext <;> simp

theorem nodeUpdate_two_b (a b : Node) (l : Link) (dims : Dimensions)
    (hid : a.id ≠ b.id) (hsrc : l.source = a.id) (htgt : l.target = b.id)
    (hy : a.y = b.y) (hd : 0 < b.x - a.x) :
    nodeUpdate [a, b] [l] dims b =
      { b with
        vx := (b.vx + ((if b.x - a.x < repulsionDistance then
            repulsionForce / ((b.x - a.x) * (b.x - a.x)) else 0) +
          (if idealDistance < b.x - a.x then
            -(attractionForce * ((b.x - a.x) - idealDistance)) else 0))) * damping
        vy := b.vy * damping
        x := max nodePadding (min (dims.width - nodePadding)
          (b.x + (b.vx + ((if b.x - a.x < repulsionDistance then
              repulsionForce / ((b.x - a.x) * (b.x - a.x)) else 0) +
            (if idealDistance < b.x - a.x then
              -(attractionForce * ((b.x - a.x) - idealDistance)) else 0))) * damping))
        y := max nodePadding (min (dims.height - nodePadding)
          (b.y + b.vy * damping)) } := by
  simp only [nodeUpdate, List.foldl_cons, List.foldl_nil]
  rw [show repulsionStep b (repulsionStep b (0, 0) a) b
      = List.foldl (repulsionStep b) (0, 0) [a, b] from rfl]
  rw [repulsionFold_two_b a b hid hy hd]
  rw [attractionStep_eq, specLinkAttraction_two_b a b l hid hsrc htgt hy hd]
  ext <;> simp

/-! ### Claim C8: a single link between two distant nodes -/

/-- C8 (amended): two linked nodes at rest on a horizontal line, inside the
clamping bounds, separated by at least `repulsionDistance` (so that
repulsion is inactive and only the attraction acts): one `update()` call
strictly decreases the distance between them, and they do not cross. -/
theorem C8_link_contracts (s : ForceSimulation) (a b : Node) (l : Link)
    (hnodes : s.nodes = [a, b]) (hlinks : s.links = [l])
    (hid : a.id ≠ b.id) (hsrc : l.source = a.id) (htgt : l.target = b.id)
    (hy : a.y = b.y) (havx : a.vx = 0) (havy : a.vy = 0)
    (hbvx : b.vx = 0) (hbvy : b.vy = 0)
    (hd : repulsionDistance ≤ b.x - a.x)
    (hx1 : nodePadding ≤ a.x) (hx2 : b.x ≤ s.dimensions.width - nodePadding)
    (hy1 : nodePadding ≤ a.y) (hy2 : a.y ≤ s.dimensions.height - nodePadding) :
    s.update.nodes = [nodeUpdate s.nodes s.links s.dimensions a,
      nodeUpdate s.nodes s.links s.dimensions b] ∧
    0 < (nodeUpdate s.nodes s.links s.dimensions b).x -
      (nodeUpdate s.nodes s.links s.dimensions a).x ∧
    nodeDist (nodeUpdate s.nodes s.links s.dimensions a)
      (nodeUpdate s.nodes s.links s.dimensions b) < nodeDist a b := by
  simp only [repulsionDistance] at hd
  simp only [nodePadding] at hx1 hx2 hy1 hy2
  have hd0 : 0 < b.x - a.x := by linarith
  have hw : s.dimensions.width ≠ 0 := by
    intro h0
    rw [h0] at hx2
    linarith
  have hh : s.dimensions.height ≠ 0 := by
    intro h0
    rw [h0] at hy2
    linarith
  have hupd : s.update.nodes = [nodeUpdate s.nodes s.links s.dimensions a,
      nodeUpdate s.nodes s.links s.dimensions b] := by
    rw [update_nodes_of s (by rw [hnodes]; simp) hw hh]
    unfold stepNodes
    rw [hnodes]
    rfl
  have hrepneg : ¬(b.x - a.x < repulsionDistance) := by
    simp only [repulsionDistance]
    linarith
  have hidealpos : idealDistance < b.x - a.x := by
    simp only [idealDistance]
    linarith
  have ha' := nodeUpdate_two_a a b l s.dimensions hid hsrc htgt hy hd0
  have hb' := nodeUpdate_two_b a b l s.dimensions hid hsrc htgt hy hd0
  rw [if_neg hrepneg, if_pos hidealpos, havx, havy] at ha'
  rw [if_neg hrepneg, if_pos hidealpos, hbvx, hbvy] at hb'
  simp only [attractionForce, idealDistance, damping, nodePadding] at ha' hb'
  have hax : (nodeUpdate [a, b] [l] s.dimensions a).x
      = a.x + (0 + (0 + 3 / 50 * (b.x - a.x - 250))) * (9 / 10) := by
    rw [ha']
    show max 80 (min (s.dimensions.width - 80)
      (a.x + (0 + (0 + 3 / 50 * (b.x - a.x - 250))) * (9 / 10))) = _
    rw [min_eq_right (by linarith), max_eq_right (by linarith)]
  have hbx : (nodeUpdate [a, b] [l] s.dimensions b).x
      = b.x + (0 + (0 + -(3 / 50 * (b.x - a.x - 250)))) * (9 / 10) := by
    rw [hb']
    show max 80 (min (s.dimensions.width - 80)
      (b.x + (0 + (0 + -(3 / 50 * (b.x - a.x - 250)))) * (9 / 10))) = _
    rw [min_eq_right (by linarith), max_eq_right (by linarith)]
  have hay : (nodeUpdate [a, b] [l] s.dimensions a).y = a.y := by
    rw [ha']
    show max 80 (min (s.dimensions.height - 80) (a.y + 0 * (9 / 10))) = _
    rw [min_eq_right (by linarith), max_eq_right (by linarith)]
    ring
  have hby : (nodeUpdate [a, b] [l] s.dimensions b).y = b.y := by
    rw [hb']
    show max 80 (min (s.dimensions.height - 80) (b.y + 0 * (9 / 10))) = _
    rw [min_eq_right (by rw [← hy]; linarith), max_eq_right (by rw [← hy]; linarith)]
    ring
  rw [hnodes, hlinks]
  refine ⟨by rw [← hnodes, ← hlinks]; exact hupd, ?_, ?_⟩
  · rw [hax, hbx]
    linarith
  · rw [nodeDist_horizontal _ _ (by rw [hay, hby, hy]), nodeDist_horizontal a b hy]
    rw [hax, hbx]
    rw [abs_sub_comm, abs_of_pos (by linarith), abs_sub_comm, abs_of_pos hd0]
    linarith

/-- Linked node at x = 100 (at rest, inside the 1000×400 bounds). -/
def linkNodeA : Node := ⟨"a", "A", "A", 100, 200, 0, 0, "", "", "", none, none⟩

/-- Linked node at x = 500: separation 400 ≥ repulsionDistance. -/
def linkNodeB : Node := ⟨"b", "B", "B", 500, 200, 0, 0, "", "", "", none, none⟩

/-- The link joining the two nodes. -/
def abLink : Link := ⟨"a", "b", false⟩

/-- A 1000×400 container. -/
def wideDims : Dimensions := ⟨1000, 400⟩

/-- Engine for the witness of C8: two linked nodes 400 apart. -/
def linkSim : ForceSimulation := ForceSimulation.init [linkNodeA, linkNodeB] [abLink] wideDims

/-- Witness for C8 (amended) at separation 400. -/
theorem C8_link_contracts_witness :
    linkSim.update.nodes = [nodeUpdate linkSim.nodes linkSim.links linkSim.dimensions linkNodeA,
      nodeUpdate linkSim.nodes linkSim.links linkSim.dimensions linkNodeB] ∧
    0 < (nodeUpdate linkSim.nodes linkSim.links linkSim.dimensions linkNodeB).x -
      (nodeUpdate linkSim.nodes linkSim.links linkSim.dimensions linkNodeA).x ∧
    nodeDist (nodeUpdate linkSim.nodes linkSim.links linkSim.dimensions linkNodeA)
      (nodeUpdate linkSim.nodes linkSim.links linkSim.dimensions linkNodeB) <
      nodeDist linkNodeA linkNodeB :=
  C8_link_contracts linkSim linkNodeA linkNodeB abLink rfl rfl
    (by simp [linkNodeA, linkNodeB]) rfl rfl rfl rfl rfl rfl rfl
    (by norm_num [linkNodeA, linkNodeB, repulsionDistance])
    (by norm_num [linkNodeA, nodePadding])
    (by norm_num [linkNodeB, linkSim, ForceSimulation.init, wideDims, nodePadding])
    (by norm_num [linkNodeA, nodePadding])
    (by norm_num [linkNodeA, linkSim, ForceSimulation.init, wideDims, nodePadding])

/-- Linked node at x = 350.5: separation 250.5, just above idealDistance. -/
def gapNodeB : Node := ⟨"b", "B", "B", 701 / 2, 200, 0, 0, "", "", "", none, none⟩

/-- Engine for the C8 counterexample: two linked nodes 250.5 apart, at rest,
inside the 1000×400 bounds. -/
def gapSim : ForceSimulation := ForceSimulation.init [linkNodeA, gapNodeB] [abLink] wideDims

/-- C8 counterexample: two linked nodes at rest, farther apart than
`idealDistance` (250.5 > 250) and within the clamping bounds — yet one
`update()` call strictly INCREASES their distance, because at separation
250.5 the repulsion `3000/250.5²` exceeds the attraction `0.06·0.5`.  The
claim's "strictly decrease the distance on every tick until within
idealDistance" is false. -/
theorem C8_counterexample :
    linkNodeA.vx = 0 ∧ linkNodeA.vy = 0 ∧ gapNodeB.vx = 0 ∧ gapNodeB.vy = 0 ∧
    idealDistance < nodeDist linkNodeA gapNodeB ∧
    gapSim.update.nodes = [nodeUpdate [linkNodeA, gapNodeB] [abLink] wideDims linkNodeA,
      nodeUpdate [linkNodeA, gapNodeB] [abLink] wideDims gapNodeB] ∧
    nodeDist linkNodeA gapNodeB <
      nodeDist (nodeUpdate [linkNodeA, gapNodeB] [abLink] wideDims linkNodeA)
        (nodeUpdate [linkNodeA, gapNodeB] [abLink] wideDims gapNodeB) := by
  have hd0 : (0:ℝ) < gapNodeB.x - linkNodeA.x := by norm_num [linkNodeA, gapNodeB]
  have ha' := nodeUpdate_two_a linkNodeA gapNodeB abLink wideDims
    (by simp [linkNodeA, gapNodeB]) rfl rfl rfl hd0
  have hb' := nodeUpdate_two_b linkNodeA gapNodeB abLink wideDims
    (by simp [linkNodeA, gapNodeB]) rfl rfl rfl hd0
  have h1 : gapNodeB.x - linkNodeA.x < repulsionDistance := by
    norm_num [linkNodeA, gapNodeB, repulsionDistance]
  have h2 : idealDistance < gapNodeB.x - linkNodeA.x := by
    norm_num [linkNodeA, gapNodeB, idealDistance]
  rw [if_pos h1, if_pos h2] at ha' hb'
  have hax : (nodeUpdate [linkNodeA, gapNodeB] [abLink] wideDims linkNodeA).x
      = 100 - 4022973 / 251001000 := by
    rw [ha']
    show max nodePadding (min (wideDims.width - nodePadding)
      (linkNodeA.x + (linkNodeA.vx + (-(repulsionForce /
          ((gapNodeB.x - linkNodeA.x) * (gapNodeB.x - linkNodeA.x))) +
        attractionForce * ((gapNodeB.x - linkNodeA.x) - idealDistance))) * damping)) = _
    rw [min_eq_right, max_eq_right] <;>
      norm_num [linkNodeA, gapNodeB, wideDims, nodePadding, repulsionForce,
        attractionForce, idealDistance, damping]
  have hbx : (nodeUpdate [linkNodeA, gapNodeB] [abLink] wideDims gapNodeB).x
      = 701 / 2 + 4022973 / 251001000 := by
    rw [hb']
    show max nodePadding (min (wideDims.width - nodePadding)
      (gapNodeB.x + (gapNodeB.vx + (repulsionForce /
          ((gapNodeB.x - linkNodeA.x) * (gapNodeB.x - linkNodeA.x)) +
        -(attractionForce * ((gapNodeB.x - linkNodeA.x) - idealDistance)))) * damping)) = _
    rw [min_eq_right, max_eq_right] <;>
      norm_num [linkNodeA, gapNodeB, wideDims, nodePadding, repulsionForce,
        attractionForce, idealDistance, damping]
  have hay : (nodeUpdate [linkNodeA, gapNodeB] [abLink] wideDims linkNodeA).y
      = linkNodeA.y := by
    rw [ha']
    show max nodePadding (min (wideDims.height - nodePadding)
      (linkNodeA.y + linkNodeA.vy * damping)) = _
    rw [min_eq_right, max_eq_right] <;>
      norm_num [linkNodeA, wideDims, nodePadding, damping]
  have hby : (nodeUpdate [linkNodeA, gapNodeB] [abLink] wideDims gapNodeB).y
      = gapNodeB.y := by
    rw [hb']
    show max nodePadding (min (wideDims.height - nodePadding)
      (gapNodeB.y + gapNodeB.vy * damping)) = _
    rw [min_eq_right, max_eq_right] <;>
      norm_num [gapNodeB, wideDims, nodePadding, damping]
  have hupd : gapSim.update.nodes = [nodeUpdate [linkNodeA, gapNodeB] [abLink] wideDims linkNodeA,
      nodeUpdate [linkNodeA, gapNodeB] [abLink] wideDims gapNodeB] := by
    rw [update_nodes_of _ (by simp [gapSim, ForceSimulation.init])
      (by norm_num [gapSim, ForceSimulation.init, wideDims])
      (by norm_num [gapSim, ForceSimulation.init, wideDims])]
    rfl
  have holddist : nodeDist linkNodeA gapNodeB = 501 / 2 := by
    rw [nodeDist_horizontal linkNodeA gapNodeB rfl]
    rw [show linkNodeA.x - gapNodeB.x = -(501 / 2) from by norm_num [linkNodeA, gapNodeB]]
    rw [abs_neg]
    rw [abs_of_pos]
    norm_num
  have hnewdist : nodeDist (nodeUpdate [linkNodeA, gapNodeB] [abLink] wideDims linkNodeA)
      (nodeUpdate [linkNodeA, gapNodeB] [abLink] wideDims gapNodeB)
      = 501 / 2 + 2 * (4022973 / 251001000) := by
    rw [nodeDist_horizontal _ _ (by rw [hay, hby]; norm_num [linkNodeA, gapNodeB])]
    rw [hax, hbx]
    rw [show (100 - 4022973 / 251001000 : ℝ) - (701 / 2 + 4022973 / 251001000)
        = -(501 / 2 + 2 * (4022973 / 251001000)) from by norm_num]
    rw [abs_neg]
    rw [abs_of_pos]
    norm_num
  refine ⟨rfl, rfl, rfl, rfl, ?_, hupd, ?_⟩
  · rw [holddist]
    norm_num [idealDistance]
  · rw [holddist, hnewdist]
    norm_num

end

end NodeLink
